import Mathlib

/-!
# Course-Wizard: verified shallow embedding

A shallow embedding of the content-generation and packaging pipeline of the
Course-Wizard web application, together with proofs about it.

The embedding covers:
* the course normalizer of `src/app/api/generate-canvas/route.ts` (lines 41-56);
* the IMSCC exporter (`escapeXml`, `generateManifest`, `generatePageHtml`,
  `generateAssignmentHtml`, `generateDiscussionHtml`, `generateQuizQti`,
  `exportToIMSCC`);
* the JSON post-processing of the LLM client (`generateJSONResponse`).

Modelling conventions:
* JavaScript strings are Lean `String`s; string-level primitives the code uses
  (`trim`, `startsWith`, `endsWith`, `slice`, global single-character regex
  replacement) are given explicit executable definitions over `List Char`;
* optional / possibly-`undefined` fields are `Option`s; the JavaScript `||`
  operator on strings (which also replaces a present empty string) is
  `jsOrString`, while `??` is `Option.getD`;
* the zip archive produced by `exportToIMSCC` is modelled as the ordered list
  of (path, file content) entries added to it;
* `generateId` draws from `Date.now()` and `Math.random()`; the identifiers a
  single render draws are passed in explicitly as arguments;
* `JSON.parse` is an external runtime primitive, abstracted as a `parse`
  parameter returning `Option`.
-/

namespace CourseWizard

/-- A single answer choice of a multiple-choice question (`{text, correct}`). -/
structure QuizAnswer where
  text : String
  correct : Bool
deriving Repr, DecidableEq

/-- A quiz question: `{type, text, points, answers?}` with
`type ∈ {multiple_choice, short_answer, essay}`. -/
structure Question where
  type : String
  text : String
  points : Int
  answers : Option (List QuizAnswer)
deriving Repr, DecidableEq

/-- One rating level of a rubric criterion. -/
structure RubricRating where
  description : String
  points : Int
deriving Repr, DecidableEq

/-- One rubric criterion with its rating levels. -/
structure RubricCriterion where
  description : String
  points : Int
  ratings : List RubricRating
deriving Repr, DecidableEq

/-- An assignment rubric. -/
structure Rubric where
  title : String
  criteria : List RubricCriterion
deriving Repr, DecidableEq

/-- A normalized module item, as consumed by the exporter. -/
structure CanvasModuleItem where
  id : String
  type : String
  title : String
  content : Option String
  position : Int
  points : Option Int
  rubric : Option Rubric
  questions : Option (List Question)
  prompt : Option String
deriving Repr, DecidableEq

/-- A normalized course module. -/
structure CanvasModule where
  id : String
  name : String
  position : Int
  items : List CanvasModuleItem
deriving Repr, DecidableEq

/-- A normalized generated course. `welcomeMessage` is optional and defaulted
by the exporter. -/
structure GeneratedCourse where
  title : String
  description : String
  welcomeMessage : Option String
  modules : List CanvasModule
deriving Repr, DecidableEq

/-- A module item as returned by the LLM, before normalization: every field the
normalizer touches may be absent. -/
structure RawModuleItem where
  id : Option String
  type : Option String
  title : Option String
  content : Option String
  position : Option Int
  points : Option Int
  rubric : Option Rubric
  questions : Option (List Question)
  prompt : Option String
deriving Repr, DecidableEq

/-- A module as returned by the LLM, before normalization. -/
structure RawModule where
  id : Option String
  name : Option String
  position : Option Int
  items : Option (List RawModuleItem)
deriving Repr, DecidableEq

/-- JavaScript `value || default` for an optional string: the default is used
when the value is `undefined`/`null` *or* the empty string (the only falsy
string value). -/
def jsOrString : Option String → String → String
  | none, d => d
  | some s, d => if s = "" then d else s

/-- Normalization of one module item
(`src/app/api/generate-canvas/route.ts` lines 45-55): `id`, `type`, `title`
are defaulted with `||`, `position` with `??`; the remaining fields are passed
through unchanged. -/
def normalizeItem (moduleIndex itemIndex : Nat) (item : RawModuleItem) :
    CanvasModuleItem where
  id := jsOrString item.id
    ("item-" ++ toString (moduleIndex + 1) ++ "-" ++ toString (itemIndex + 1))
  type := jsOrString item.type "page"
  title := jsOrString item.title ("Item " ++ toString (itemIndex + 1))
  content := item.content
  position := item.position.getD ((itemIndex : Int) + 1)
  points := item.points
  rubric := item.rubric
  questions := item.questions
  prompt := item.prompt

/-- Normalization of one module
(`src/app/api/generate-canvas/route.ts` lines 41-45): `id` and `name` are
defaulted with `||`, `position` with `??`; `module.items || []` only defaults
an absent array (an empty array is truthy). -/
def normalizeModule (moduleIndex : Nat) (m : RawModule) : CanvasModule where
  id := jsOrString m.id ("module-" ++ toString (moduleIndex + 1))
  name := jsOrString m.name ("Module " ++ toString (moduleIndex + 1))
  position := m.position.getD ((moduleIndex : Int) + 1)
  items := (m.items.getD []).mapIdx fun j it => normalizeItem moduleIndex j it

/-- The whole `course.modules = course.modules.map(...)` normalization step of
the route handler. -/
def normalizeModules (modules : List RawModule) : List CanvasModule :=
  modules.mapIdx normalizeModule

/-! ## String primitives used by the JavaScript source -/

/-- The double-quote character. -/
def quoteChar : Char := Char.ofNat 34

/-- The apostrophe character. -/
def aposChar : Char := Char.ofNat 39

/-- The backtick character. -/
def backtickChar : Char := Char.ofNat 96

/-- `String.prototype.replace(/c/g, r)` for a single-character pattern `c`:
every occurrence of `c` is replaced by `r`, left to right. -/
def replaceAllChar (c : Char) (r : List Char) : List Char → List Char
  | [] => []
  | x :: xs => (if x = c then r else [x]) ++ replaceAllChar c r xs

/-- `String.prototype.startsWith` on character lists. -/
def strStartsWith : List Char → List Char → Bool
  | [], _ => true
  | _ :: _, [] => false
  | p :: ps, c :: cs => (p == c) && strStartsWith ps cs

/-- `String.prototype.endsWith` on character lists. -/
def strEndsWith (p l : List Char) : Bool :=
  strStartsWith p.reverse l.reverse

/-- One character of the whitespace class trimmed by
`String.prototype.trim` (restricted to the ASCII whitespace actually
occurring in LLM replies). -/
def isJsWhitespace (c : Char) : Bool :=
  c = ' ' || c = '\t' || c = '\n' || c = '\r' || c = '\x0b' || c = '\x0c'

/-- Left half of `String.prototype.trim`. -/
def trimLeftChars (l : List Char) : List Char :=
  l.dropWhile isJsWhitespace

/-- Right half of `String.prototype.trim`. -/
def trimRightChars (l : List Char) : List Char :=
  (l.reverse.dropWhile isJsWhitespace).reverse

/-- `String.prototype.trim` on character lists. -/
def trimChars (l : List Char) : List Char :=
  trimRightChars (trimLeftChars l)

/-- Substring search (`String.prototype.includes`): does `pat` occur
contiguously inside the list? -/
def hasSub (pat : List Char) : List Char → Bool
  | [] => strStartsWith pat []
  | c :: cs => strStartsWith pat (c :: cs) || hasSub pat cs

/-- Substring search on strings. -/
def strContains (s pat : String) : Bool :=
  hasSub pat.data s.data

/-- `array.join("")` on a list of strings. -/
def strJoin (l : List String) : String :=
  l.foldr (fun a b => a ++ b) ""

/-! ## The IMSCC exporter (`src/lib/export/imscc.ts`) -/

/-- `escapeXml` on character lists: the source applies five global
single-character replacements in this order: `&`, `<`, `>`, `"`, `'`. -/
def escapeXmlChars (l : List Char) : List Char :=
  replaceAllChar aposChar ("&apos;".data)
    (replaceAllChar quoteChar ("&quot;".data)
      (replaceAllChar '>' ("&gt;".data)
        (replaceAllChar '<' ("&lt;".data)
          (replaceAllChar '&' ("&amp;".data) l))))

/-- `escapeXml` (imscc.ts lines 10-17). -/
def escapeXml (text : String) : String :=
  String.mk (escapeXmlChars text.data)

/-- Resource `type` and `href` chosen for a module item by the manifest
generator (imscc.ts lines 46-58): `webcontent` at the top level is the
initial value, overwritten for the three recognized non-page types. -/
def resourceTypeHref (item : CanvasModuleItem) : String × String :=
  if item.type = "assignment" then ("assignment", "assignments/" ++ item.id ++ ".html")
  else if item.type = "discussion" then ("discussion", "discussions/" ++ item.id ++ ".html")
  else if item.type = "quiz" then ("assessment", "quizzes/" ++ item.id ++ ".xml")
  else ("webcontent", item.id ++ ".html")

/-- The `<resource>` block pushed for one module item. -/
def manifestResource (item : CanvasModuleItem) : String :=
  "\n    <resource identifier=\"res_" ++ item.id ++ "\" type=\"" ++
    (resourceTypeHref item).1 ++ "\" href=\"" ++ (resourceTypeHref item).2 ++
    "\">\n      <file href=\"" ++ (resourceTypeHref item).2 ++
    "\"/>\n    </resource>"

/-- The organization `<item>` block pushed for one module item. -/
def manifestModuleItem (item : CanvasModuleItem) : String :=
  "\n          <item identifier=\"item_" ++ item.id ++ "\" identifierref=\"res_" ++
    item.id ++ "\">\n            <title>" ++ escapeXml item.title ++
    "</title>\n          </item>"

/-- The organization `<item>` block pushed for one module. -/
def manifestModule (m : CanvasModule) : String :=
  "\n      <item identifier=\"mod_" ++ m.id ++ "\">\n        <title>" ++
    escapeXml m.name ++ "</title>\n        " ++
    strJoin (m.items.map manifestModuleItem) ++ "\n      </item>"

/-- The `<resource>` block for the synthetic course overview. -/
def manifestOverviewResource (overviewId : String) : String :=
  "\n    <resource identifier=\"" ++ overviewId ++
    "\" type=\"webcontent\" href=\"course_overview.html\">\n      <file href=\"course_overview.html\"/>\n    </resource>"

/-- The organization `<item>` block for the synthetic course overview. -/
def manifestOverviewItem (overviewId : String) : String :=
  "\n      <item identifier=\"overview_item\" identifierref=\"" ++ overviewId ++
    "\">\n        <title>Course Overview</title>\n      </item>"

/-- `generateManifest` (imscc.ts lines 20-110). `generateId` draws a fresh
timestamp-plus-random identifier twice per call (once for the overview
resource, once for the manifest identifier); the two drawn values are the
`overviewId` and `courseId` arguments. -/
def generateManifest (overviewId courseId : String) (course : GeneratedCourse) :
    String :=
  let resources : List String :=
    manifestOverviewResource overviewId ::
      course.modules.flatMap fun m => m.items.map manifestResource
  let items : List String :=
    manifestOverviewItem overviewId :: course.modules.map manifestModule
  "<?xml version=\"1.0\" encoding=\"UTF-8\"?>\n<manifest identifier=\"course_" ++
    courseId ++
    "\"\n  xmlns=\"http://www.imsglobal.org/xsd/imsccv1p1/imscp_v1p1\"\n  xmlns:lom=\"http://ltsc.ieee.org/xsd/imsccv1p1/LOM/resource\"\n  xmlns:lomimscc=\"http://ltsc.ieee.org/xsd/imsccv1p1/LOM/manifest\"\n  xmlns:xsi=\"http://www.w3.org/2001/XMLSchema-instance\"\n  xsi:schemaLocation=\"http://www.imsglobal.org/xsd/imsccv1p1/imscp_v1p1 http://www.imsglobal.org/profile/cc/ccv1p1/ccv1p1_imscp_v1p2_v1p0.xsd\">\n  <metadata>\n    <schema>IMS Common Cartridge</schema>\n    <schemaversion>1.1.0</schemaversion>\n    <lomimscc:lom>\n      <lomimscc:general>\n        <lomimscc:title>\n          <lomimscc:string>" ++
    escapeXml course.title ++
    "</lomimscc:string>\n        </lomimscc:title>\n        <lomimscc:description>\n          <lomimscc:string>" ++
    escapeXml course.description ++
    "</lomimscc:string>\n        </lomimscc:description>\n      </lomimscc:general>\n    </lomimscc:lom>\n  </metadata>\n  <organizations>\n    <organization identifier=\"org_1\" structure=\"rooted-hierarchy\">\n      <item identifier=\"root\">\n        " ++
    strJoin items ++
    "\n      </item>\n    </organization>\n  </organizations>\n  <resources>\n    " ++
    strJoin resources ++
    "\n  </resources>\n</manifest>"

/-- `generatePageHtml` (imscc.ts lines 113-124): the title is XML-escaped,
the content is embedded verbatim. -/
def generatePageHtml (title content : String) : String :=
  "<!DOCTYPE html>\n<html>\n<head>\n  <meta charset=\"UTF-8\">\n  <title>" ++
    escapeXml title ++ "</title>\n</head>\n<body>\n" ++ content ++
    "\n</body>\n</html>"

/-- One rating of a rubric criterion rendered as `description (N pts)`. -/
def ratingText (r : RubricRating) : String :=
  escapeXml r.description ++ " (" ++ toString r.points ++ " pts)"

/-- One rubric criterion rendered as a table row. -/
def rubricRow (c : RubricCriterion) : String :=
  "\n    <tr>\n      <td>" ++ escapeXml c.description ++ "</td>\n      <td>" ++
    toString c.points ++ "</td>\n      <td>" ++
    String.intercalate "<br>" (c.ratings.map ratingText) ++
    "</td>\n    </tr>"

/-- The rubric table of an assignment page, empty when no rubric is present. -/
def rubricHtml (item : CanvasModuleItem) : String :=
  match item.rubric with
  | none => ""
  | some rb =>
    "\n<h3>Rubric: " ++ escapeXml rb.title ++
      "</h3>\n<table border=\"1\" cellpadding=\"8\" cellspacing=\"0\">\n  <thead>\n    <tr>\n      <th>Criterion</th>\n      <th>Points</th>\n      <th>Ratings</th>\n    </tr>\n  </thead>\n  <tbody>\n    " ++
      strJoin (rb.criteria.map rubricRow) ++ "\n  </tbody>\n</table>"

/-- `generateAssignmentHtml` (imscc.ts lines 127-172). `item.points || 0`
renders the points, defaulting an absent value to 0. -/
def generateAssignmentHtml (item : CanvasModuleItem) : String :=
  "<!DOCTYPE html>\n<html>\n<head>\n  <meta charset=\"UTF-8\">\n  <title>" ++
    escapeXml item.title ++ "</title>\n</head>\n<body>\n<h1>" ++
    escapeXml item.title ++ "</h1>\n<p><strong>Points:</strong> " ++
    toString (item.points.getD 0) ++ "</p>\n\n<h2>Instructions</h2>\n" ++
    jsOrString item.content "<p>No instructions provided.</p>" ++ "\n\n" ++
    rubricHtml item ++ "\n</body>\n</html>"

/-- `generateDiscussionHtml` (imscc.ts lines 175-187):
`item.prompt || item.content || "<p>Discussion topic.</p>"`. -/
def generateDiscussionHtml (item : CanvasModuleItem) : String :=
  "<!DOCTYPE html>\n<html>\n<head>\n  <meta charset=\"UTF-8\">\n  <title>" ++
    escapeXml item.title ++ "</title>\n</head>\n<body>\n<h1>" ++
    escapeXml item.title ++ "</h1>\n" ++
    jsOrString item.prompt (jsOrString item.content "<p>Discussion topic.</p>") ++
    "\n</body>\n</html>"

/-- One `<response_label>` per answer choice, identified by the answer's
zero-based index. -/
def answerLabel (aIndex : Nat) (a : QuizAnswer) : String :=
  "\n            <response_label ident=\"ans_" ++ toString aIndex ++
    "\">\n              <material>\n                <mattext texttype=\"text/plain\">" ++
    escapeXml a.text ++
    "</mattext>\n              </material>\n            </response_label>"

/-- The `<respcondition>` block of a multiple-choice question
(imscc.ts lines 224-234): present exactly when
`q.answers.find(a => a.correct)` finds a correct answer, and referencing that
answer by `q.answers.indexOf(correctAnswer)`. -/
def respCondition (answers : List QuizAnswer) (points : Int) : String :=
  match answers.find? (fun a => a.correct) with
  | none => ""
  | some correctAnswer =>
    "\n        <respcondition continue=\"No\">\n          <conditionvar>\n            <varequal respident=\"response1\">ans_" ++
      toString (answers.indexOf correctAnswer) ++
      "</varequal>\n          </conditionvar>\n          <setvar action=\"Set\" varname=\"SCORE\">" ++
      toString points ++ "</setvar>\n        </respcondition>"

/-- The `<item>` emitted for a multiple-choice question with a present
`answers` array (imscc.ts lines 199-236). -/
def mcQuestionItem (index : Nat) (q : Question) (answers : List QuizAnswer) :
    String :=
  "\n    <item ident=\"q_" ++ toString (index + 1) ++ "\" title=\"Question " ++
    toString (index + 1) ++
    "\">\n      <presentation>\n        <material>\n          <mattext texttype=\"text/html\">" ++
    escapeXml q.text ++
    "</mattext>\n        </material>\n        <response_lid ident=\"response1\" rcardinality=\"Single\">\n          <render_choice>\n            " ++
    strJoin (answers.mapIdx fun aIndex a => answerLabel aIndex a) ++
    "\n          </render_choice>\n        </response_lid>\n      </presentation>\n      <resprocessing>\n        <outcomes>\n          <decvar maxvalue=\"" ++
    toString q.points ++
    "\" minvalue=\"0\" varname=\"SCORE\" vartype=\"Decimal\"/>\n        </outcomes>\n        " ++
    respCondition answers q.points ++
    "\n      </resprocessing>\n    </item>"

/-- The `<item>` emitted for an essay / short-answer question, and for any
question that fails the `multiple_choice && answers` test
(imscc.ts lines 240-257). -/
def freeResponseItem (index : Nat) (q : Question) : String :=
  "\n    <item ident=\"q_" ++ toString (index + 1) ++ "\" title=\"Question " ++
    toString (index + 1) ++
    "\">\n      <presentation>\n        <material>\n          <mattext texttype=\"text/html\">" ++
    escapeXml q.text ++
    "</mattext>\n        </material>\n        <response_str ident=\"response1\" rcardinality=\"Single\">\n          <render_fib>\n            <response_label ident=\"answer1\" rshuffle=\"No\"/>\n          </render_fib>\n        </response_str>\n      </presentation>\n      <resprocessing>\n        <outcomes>\n          <decvar maxvalue=\"" ++
    toString q.points ++
    "\" minvalue=\"0\" varname=\"SCORE\" vartype=\"Decimal\"/>\n        </outcomes>\n      </resprocessing>\n    </item>"

/-- The question renderer of `generateQuizQti`: the multiple-choice branch is
taken when `q.type === "multiple_choice" && q.answers` (an absent `answers`
array is falsy, a present one — even empty — is truthy). -/
def renderQuestion (index : Nat) (q : Question) : String :=
  if q.type = "multiple_choice" then
    match q.answers with
    | some answers => mcQuestionItem index q answers
    | none => freeResponseItem index q
  else freeResponseItem index q

/-- `generateQuizQti` (imscc.ts lines 190-269): `item.questions || []`
defaults only an absent array. -/
def generateQuizQti (item : CanvasModuleItem) : String :=
  let questions := item.questions.getD []
  let questionItems := strJoin (questions.mapIdx renderQuestion)
  "<?xml version=\"1.0\" encoding=\"UTF-8\"?>\n<questestinterop xmlns=\"http://www.imsglobal.org/xsd/ims_qtiasiv1p2\">\n  <assessment ident=\"quiz_" ++
    item.id ++ "\" title=\"" ++ escapeXml item.title ++
    "\">\n    <section ident=\"root_section\">\n      " ++ questionItems ++
    "\n    </section>\n  </assessment>\n</questestinterop>"

/-- The (path, content) entry the per-item `switch` of `exportToIMSCC`
(imscc.ts lines 292-318) adds to the archive for one module item; the
`default` branch coincides with the `page` branch. -/
def itemEntry (item : CanvasModuleItem) : String × String :=
  if item.type = "page" then
    (item.id ++ ".html", generatePageHtml item.title (jsOrString item.content ""))
  else if item.type = "assignment" then
    ("assignments/" ++ item.id ++ ".html", generateAssignmentHtml item)
  else if item.type = "discussion" then
    ("discussions/" ++ item.id ++ ".html", generateDiscussionHtml item)
  else if item.type = "quiz" then
    ("quizzes/" ++ item.id ++ ".xml", generateQuizQti item)
  else
    (item.id ++ ".html", generatePageHtml item.title (jsOrString item.content ""))

/-- `exportToIMSCC` (imscc.ts lines 272-324), with the zip archive modelled
as the ordered list of (path, file content) entries added to it. The manifest
and the course overview page are added first, then one file per module item in
iteration order. -/
def exportToIMSCC (overviewId courseId : String) (course : GeneratedCourse) :
    List (String × String) :=
  ("imsmanifest.xml", generateManifest overviewId courseId course) ::
    ("course_overview.html",
      generatePageHtml "Welcome"
        (jsOrString course.welcomeMessage "<p>Welcome to the course!</p>")) ::
    course.modules.flatMap fun m => m.items.map itemEntry

/-! ## The LLM client (`src/lib/llm/client.ts`) -/

/-- A chat message: `{role, content}` with
`role ∈ {system, user, assistant}`. -/
structure LLMMessage where
  role : String
  content : String
deriving Repr, DecidableEq

/-- The instruction `generateJSONResponse` appends to the last user message
(client.ts line 107). -/
def jsonInstruction : String :=
  "\n\nRespond with valid JSON only. No markdown, no explanation, just the JSON object."

/-- The caller-visible message list after `generateJSONResponse` returns
(client.ts lines 103-108). `const jsonMessages = [...messages]` copies the
array but shares the message objects, so the `+=` on `lastMessage.content`
mutates the object the caller's array also references: when the last message
exists and has role `user`, the caller's last message gains the JSON
instruction. This list is also the `jsonMessages` sent to the model. -/
def messagesAfterJSONCall (messages : List LLMMessage) : List LLMMessage :=
  match messages.getLast? with
  | none => messages
  | some lastMessage =>
    if lastMessage.role = "user" then
      messages.dropLast ++
        [{ lastMessage with content := lastMessage.content ++ jsonInstruction }]
    else messages

/-- The markdown-fence stripping of `generateJSONResponse`
(client.ts lines 115-124): trim, drop a leading ```` ```json ```` (7
characters) or ```` ``` ```` (3 characters), drop a trailing ```` ``` ````
(`slice(0, -3)`), trim again. -/
def cleanJSONChars (response : List Char) : List Char :=
  let c1 := trimChars response
  let c2 :=
    if strStartsWith ("```json".data) c1 then c1.drop 7
    else if strStartsWith ("```".data) c1 then c1.drop 3
    else c1
  let c3 := if strEndsWith ("```".data) c2 then c2.take (c2.length - 3) else c2
  trimChars c3

/-- The parsing phase of `generateJSONResponse` (client.ts lines 112-130) as
a function of the raw LLM reply. `JSON.parse` is an external runtime
primitive, abstracted as the `parse` parameter; a `parse` failure is the
thrown `Error("LLM response was not valid JSON")` (the raw reply is also
logged via `console.error`, a side effect outside this model). -/
def generateJSONResponse {α : Type} (parse : List Char → Option α)
    (response : String) : Except String α :=
  match parse (cleanJSONChars response.data) with
  | some v => Except.ok v
  | none => Except.error "LLM response was not valid JSON"

/-! ## Concrete inputs used by the theorems below -/

/-- The characterization of `escapeXml` as a per-character substitution:
the five XML special characters become their entities, every other character
is kept. -/
def escCharSpec (c : Char) : List Char :=
  if c = '&' then "&amp;".data
  else if c = '<' then "&lt;".data
  else if c = '>' then "&gt;".data
  else if c = quoteChar then "&quot;".data
  else if c = aposChar then "&apos;".data
  else [c]

/-- The multiple-choice question `{answers: [{A,false},{B,true}], points: 10}`
of the QTI scenario. -/
def mcqAB : Question :=
  { type := "multiple_choice", text := "Which letter?", points := 10,
    answers := some [{ text := "A", correct := false },
                     { text := "B", correct := true }] }

/-- A multiple-choice question in which no answer is marked correct. -/
def mcqNoCorrect : Question :=
  { type := "multiple_choice", text := "Pick one.", points := 10,
    answers := some [{ text := "A", correct := false },
                     { text := "B", correct := false }] }

/-- A multiple-choice question whose `answers` field is absent. -/
def mcqNoAnswers : Question :=
  { type := "multiple_choice", text := "Explain the concept.", points := 5,
    answers := none }

/-- A quiz item holding `mcqAB`. -/
def quizItemAB : CanvasModuleItem :=
  { id := "quiz1", type := "quiz", title := "Letters", content := none,
    position := 1, points := none, rubric := none,
    questions := some [mcqAB], prompt := none }

/-- A quiz item holding `mcqNoCorrect`. -/
def quizItemNoCorrect : CanvasModuleItem :=
  { id := "quiz2", type := "quiz", title := "Letters", content := none,
    position := 1, points := none, rubric := none,
    questions := some [mcqNoCorrect], prompt := none }

/-- A quiz item with no questions. -/
def emptyQuizItem : CanvasModuleItem :=
  { id := "q8", type := "quiz", title := "Quiz", content := none,
    position := 1, points := none, rubric := none,
    questions := none, prompt := none }

/-- A module item with an unrecognized `type`. -/
def videoItem : CanvasModuleItem :=
  { id := "video-1", type := "video", title := "Video", content := none,
    position := 1, points := none, rubric := none,
    questions := none, prompt := none }

/-- A one-module course holding `videoItem` and `quizItemAB`. -/
def smallCourse : GeneratedCourse :=
  { title := "Intro", description := "A course.", welcomeMessage := none,
    modules := [{ id := "module-1", name := "Module 1", position := 1,
                  items := [videoItem, quizItemAB] }] }

/-- `smallCourse` with every position renumbered (module position 7,
item positions 99 and 98). -/
def smallCourseRenumbered : GeneratedCourse :=
  { title := "Intro", description := "A course.", welcomeMessage := none,
    modules := [{ id := "module-1", name := "Module 1", position := 7,
                  items := [{ videoItem with position := 99 },
                            { quizItemAB with position := 98 }] }] }

/-! ## General helper lemmas -/

theorem data_append (a b : String) : (a ++ b).data = a.data ++ b.data := rfl

theorem mk_data (l : List Char) : (String.mk l).data = l := rfl

theorem string_eq_of_data {a b : String} (h : a.data = b.data) : a = b := by
  cases a
  cases b
  exact congrArg String.mk h

theorem strJoin_cons (a : String) (l : List String) :
    strJoin (a :: l) = a ++ strJoin l := rfl

theorem str_infix_middle (x y z : String) : y.data <:+: (x ++ y ++ z).data :=
  ⟨x.data, z.data, by simp [List.append_assoc]⟩

/-! ## The normalizer: claims C1 and C2 -/

/-- Counterexample input: a module whose `id` is present but empty. -/
theorem normalizer_module_overwrites_empty_id :
    ({ id := some "", name := none, position := none, items := none } :
        RawModule).id = some "" ∧
    (normalizeModule 0
      { id := some "", name := none, position := none, items := none }).id =
      "module-1" :=
  ⟨rfl, rfl⟩

/-- C1 (amended): the normalizer assigns `module-{i+1}` / `Module {i+1}` to a
module's `id` / `name` exactly when the field is absent *or* the empty string
(the code uses JavaScript `||`); a present non-empty `id`/`name` is preserved.
`position` uses `??`: it is assigned `i+1` exactly when absent, and a present
position — including `0` — is never overwritten. -/
theorem normalizer_module_field_defaults (i : Nat) (m : RawModule) :
    ((m.id = none ∨ m.id = some "") →
      (normalizeModule i m).id = "module-" ++ toString (i + 1)) ∧
    (∀ s, m.id = some s → s ≠ "" → (normalizeModule i m).id = s) ∧
    ((m.name = none ∨ m.name = some "") →
      (normalizeModule i m).name = "Module " ++ toString (i + 1)) ∧
    (∀ s, m.name = some s → s ≠ "" → (normalizeModule i m).name = s) ∧
    (m.position = none → (normalizeModule i m).position = (i : Int) + 1) ∧
    (∀ p, m.position = some p → (normalizeModule i m).position = p) := by
  refine ⟨fun h => ?_, fun s hs hne => ?_, fun h => ?_, fun s hs hne => ?_,
    fun h => ?_, fun p hp => ?_⟩
  · rcases h with h | h <;> simp [normalizeModule, jsOrString, h]
  · simp [normalizeModule, jsOrString, hs, hne]
  · rcases h with h | h <;> simp [normalizeModule, jsOrString, h]
  · simp [normalizeModule, jsOrString, hs, hne]
  · simp [normalizeModule, h]
  · simp [normalizeModule, hp]

/-- Witness for C1 at a concrete module: absent `id` gets `module-3`, the
present name `Intro` and present position `0` are preserved. -/
theorem normalizer_module_field_defaults_witness :
    (normalizeModule 2
      { id := none, name := some "Intro", position := some 0, items := none }).id =
      "module-3" ∧
    (normalizeModule 2
      { id := none, name := some "Intro", position := some 0, items := none }).name =
      "Intro" ∧
    (normalizeModule 2
      { id := none, name := some "Intro", position := some 0, items := none }).position =
      0 :=
  ⟨(normalizer_module_field_defaults 2 _).1 (Or.inl rfl),
   (normalizer_module_field_defaults 2 _).2.2.2.1 "Intro" rfl (by decide),
   (normalizer_module_field_defaults 2 _).2.2.2.2.2 0 rfl⟩

/-- Counterexample input: an item whose `title` is present but empty. -/
theorem normalizer_item_overwrites_empty_title :
    ({ id := none, type := none, title := some "", content := none,
       position := none, points := none, rubric := none, questions := none,
       prompt := none } : RawModuleItem).title = some "" ∧
    (normalizeItem 0 0
      { id := none, type := none, title := some "", content := none,
        position := none, points := none, rubric := none, questions := none,
        prompt := none }).title = "Item 1" :=
  ⟨rfl, rfl⟩

/-- C2 (amended): the normalizer assigns `item-{m+1}-{j+1}`, `page`,
`Item {j+1}` to an item's `id`, `type`, `title` exactly when the field is
absent *or* the empty string (JavaScript `||`); present non-empty values are
preserved. `position` uses `??` (assigned `j+1` exactly when absent); and
`content`, `points`, `rubric`, `questions`, `prompt` are passed through
unchanged, including when absent. -/
theorem normalizer_item_field_defaults (mi j : Nat) (item : RawModuleItem) :
    ((item.id = none ∨ item.id = some "") →
      (normalizeItem mi j item).id =
        "item-" ++ toString (mi + 1) ++ "-" ++ toString (j + 1)) ∧
    (∀ s, item.id = some s → s ≠ "" → (normalizeItem mi j item).id = s) ∧
    ((item.type = none ∨ item.type = some "") →
      (normalizeItem mi j item).type = "page") ∧
    (∀ s, item.type = some s → s ≠ "" → (normalizeItem mi j item).type = s) ∧
    ((item.title = none ∨ item.title = some "") →
      (normalizeItem mi j item).title = "Item " ++ toString (j + 1)) ∧
    (∀ s, item.title = some s → s ≠ "" → (normalizeItem mi j item).title = s) ∧
    (item.position = none → (normalizeItem mi j item).position = (j : Int) + 1) ∧
    (∀ p, item.position = some p → (normalizeItem mi j item).position = p) ∧
    (normalizeItem mi j item).content = item.content ∧
    (normalizeItem mi j item).points = item.points ∧
    (normalizeItem mi j item).rubric = item.rubric ∧
    (normalizeItem mi j item).questions = item.questions ∧
    (normalizeItem mi j item).prompt = item.prompt := by
  refine ⟨fun h => ?_, fun s hs hne => ?_, fun h => ?_, fun s hs hne => ?_,
    fun h => ?_, fun s hs hne => ?_, fun h => ?_, fun p hp => ?_,
    rfl, rfl, rfl, rfl, rfl⟩
  · rcases h with h | h <;> simp [normalizeItem, jsOrString, h]
  · simp [normalizeItem, jsOrString, hs, hne]
  · rcases h with h | h <;> simp [normalizeItem, jsOrString, h]
  · simp [normalizeItem, jsOrString, hs, hne]
  · rcases h with h | h <;> simp [normalizeItem, jsOrString, h]
  · simp [normalizeItem, jsOrString, hs, hne]
  · simp [normalizeItem, h]
  · simp [normalizeItem, hp]

/-- Witness for C2 at a concrete item: absent `id` gets `item-1-2`, the
present `type` is preserved, absent `title` gets `Item 2`, a present
position `0` is preserved, and a present `content` passes through. -/
theorem normalizer_item_field_defaults_witness :
    (normalizeItem 0 1
      { id := none, type := some "quiz", title := none, content := some "<p>c</p>",
        position := some 0, points := none, rubric := none, questions := none,
        prompt := none }).id = "item-1-2" ∧
    (normalizeItem 0 1
      { id := none, type := some "quiz", title := none, content := some "<p>c</p>",
        position := some 0, points := none, rubric := none, questions := none,
        prompt := none }).type = "quiz" ∧
    (normalizeItem 0 1
      { id := none, type := some "quiz", title := none, content := some "<p>c</p>",
        position := some 0, points := none, rubric := none, questions := none,
        prompt := none }).title = "Item 2" ∧
    (normalizeItem 0 1
      { id := none, type := some "quiz", title := none, content := some "<p>c</p>",
        position := some 0, points := none, rubric := none, questions := none,
        prompt := none }).position = 0 ∧
    (normalizeItem 0 1
      { id := none, type := some "quiz", title := none, content := some "<p>c</p>",
        position := some 0, points := none, rubric := none, questions := none,
        prompt := none }).content = some "<p>c</p>" :=
  ⟨(normalizer_item_field_defaults 0 1 _).1 (Or.inl rfl),
   (normalizer_item_field_defaults 0 1 _).2.2.2.1 "quiz" rfl (by decide),
   (normalizer_item_field_defaults 0 1 _).2.2.2.2.1 (Or.inl rfl),
   (normalizer_item_field_defaults 0 1 _).2.2.2.2.2.2.2.1 0 rfl,
   (normalizer_item_field_defaults 0 1 _).2.2.2.2.2.2.2.2.1⟩

/-! ## The LLM client: claims C6 and C7 -/

/-- C7: `generateJSONResponse` does *not* leave the caller's messages
unchanged. `[...messages]` copies the array but shares the message objects,
so appending the JSON instruction to `lastMessage.content` mutates the
caller's last user message: on `[{role:"user", content:"Hi"}]` the caller's
message content afterwards carries the appended instruction. -/
theorem generateJSONResponse_mutates_caller_messages :
    messagesAfterJSONCall [{ role := "user", content := "Hi" }] =
      [{ role := "user",
         content := "Hi\n\nRespond with valid JSON only. No markdown, no explanation, just the JSON object." }] ∧
    messagesAfterJSONCall [{ role := "user", content := "Hi" }] ≠
      [{ role := "user", content := "Hi" }] :=
  ⟨rfl, by decide⟩

/-! ## The QTI renderer: claims C3, C8 and C10 -/

set_option maxRecDepth 2000000 in
/-- C3: for the multiple-choice question
`answers = [{A,false},{B,true}]`, `points = 10`, the emitted QTI holds a
`<respcondition>` whose `<varequal>` references the correct answer's
zero-based index (`ans_1`) and a `<setvar>` setting `SCORE` to `10`; for the
same question with no answer marked correct, the `<decvar>` outcome
declaration is emitted but no `<respcondition>`. -/
theorem qti_respcondition_for_correct_answer :
    strContains (generateQuizQti quizItemAB)
      "<varequal respident=\"response1\">ans_1</varequal>" = true ∧
    strContains (generateQuizQti quizItemAB)
      "<setvar action=\"Set\" varname=\"SCORE\">10</setvar>" = true ∧
    strContains (generateQuizQti quizItemNoCorrect)
      "<decvar maxvalue=\"10\" minvalue=\"0\" varname=\"SCORE\" vartype=\"Decimal\"/>" =
      true ∧
    strContains (generateQuizQti quizItemNoCorrect) "<respcondition" = false :=
  ⟨by decide, by decide, by decide, by decide⟩

set_option maxRecDepth 2000000 in
/-- C10: a `multiple_choice` question whose `answers` field is absent falls
through to the free-response branch — its rendering is exactly the
`freeResponseItem` used for `short_answer` and `essay` questions — and that
rendering holds a `<response_str>` with `<render_fib>` and the `<decvar>`
outcome declaration, but no `<response_lid>` choices and no
`<respcondition>`. -/
theorem mc_question_without_answers_free_response (index : Nat) (q : Question)
    (h : q.answers = none) :
    renderQuestion index q = freeResponseItem index q ∧
    renderQuestion index q = renderQuestion index { q with type := "short_answer" } ∧
    renderQuestion index q = renderQuestion index { q with type := "essay" } ∧
    strContains (renderQuestion 0 mcqNoAnswers)
      "<response_str ident=\"response1\" rcardinality=\"Single\">" = true ∧
    strContains (renderQuestion 0 mcqNoAnswers) "<render_fib>" = true ∧
    strContains (renderQuestion 0 mcqNoAnswers)
      "<decvar maxvalue=\"5\" minvalue=\"0\" varname=\"SCORE\" vartype=\"Decimal\"/>" =
      true ∧
    strContains (renderQuestion 0 mcqNoAnswers) "<response_lid" = false ∧
    strContains (renderQuestion 0 mcqNoAnswers) "<respcondition" = false := by
  have h1 : renderQuestion index q = freeResponseItem index q := by
    by_cases hq : q.type = "multiple_choice" <;> simp [renderQuestion, hq, h]
  refine ⟨h1, ?_, ?_, by decide, by decide, by decide, by decide, by decide⟩
  · rw [h1]
    rfl
  · rw [h1]
    rfl

/-- Witness for C10 at the concrete question `mcqNoAnswers`. -/
theorem mc_question_without_answers_free_response_witness :
    mcqNoAnswers.answers = none ∧
    renderQuestion 3 mcqNoAnswers = freeResponseItem 3 mcqNoAnswers :=
  ⟨rfl, (mc_question_without_answers_free_response 3 mcqNoAnswers rfl).1⟩

set_option maxRecDepth 40000 in
/-- C8: a quiz item whose `questions` field is absent or empty still renders
to a well-formed QTI document whose `<section>` body is empty (no `<item>`
elements), and the exporter still writes it at `quizzes/{id}.xml`. -/
theorem quiz_without_questions_exports (item : CanvasModuleItem)
    (h : item.questions = none ∨ item.questions = some []) :
    generateQuizQti item =
      "<?xml version=\"1.0\" encoding=\"UTF-8\"?>\n<questestinterop xmlns=\"http://www.imsglobal.org/xsd/ims_qtiasiv1p2\">\n  <assessment ident=\"quiz_" ++
        item.id ++ "\" title=\"" ++ escapeXml item.title ++
        "\">\n    <section ident=\"root_section\">\n      \n    </section>\n  </assessment>\n</questestinterop>" ∧
    (item.type = "quiz" →
      itemEntry item = ("quizzes/" ++ item.id ++ ".xml", generateQuizQti item)) := by
  constructor
  · have hq : item.questions.getD [] = [] := by rcases h with h | h <;> simp [h]
    unfold generateQuizQti
    rw [hq]
    refine string_eq_of_data ?_
    simp [strJoin, data_append, List.append_assoc]
  · intro ht
    simp [itemEntry, ht]

/-- Witness for C8 at the concrete quiz item `emptyQuizItem`. -/
theorem quiz_without_questions_exports_witness :
    (emptyQuizItem.questions = none ∨ emptyQuizItem.questions = some []) ∧
    itemEntry emptyQuizItem = ("quizzes/q8.xml", generateQuizQti emptyQuizItem) :=
  ⟨Or.inl rfl, (quiz_without_questions_exports emptyQuizItem (Or.inl rfl)).2 rfl⟩

/-! ## Exporter routing: claim C4 -/

/-- C4: a quiz-typed item is written at `quizzes/{id}.xml` (its single
archive entry — not at the top level nor under `assignments/` or
`discussions/`), an item of unrecognized type is written at the top-level
page path `{id}.html`, each module item contributes exactly one entry to the
archive, and that entry is present in the export. -/
theorem exporter_item_routing (item : CanvasModuleItem) :
    (item.type = "quiz" →
      itemEntry item = ("quizzes/" ++ item.id ++ ".xml", generateQuizQti item)) ∧
    (item.type ≠ "page" → item.type ≠ "assignment" → item.type ≠ "discussion" →
      item.type ≠ "quiz" →
      itemEntry item =
        (item.id ++ ".html",
          generatePageHtml item.title (jsOrString item.content ""))) ∧
    (∀ oid cid (course : GeneratedCourse) (m : CanvasModule),
      m ∈ course.modules → item ∈ m.items →
      itemEntry item ∈ exportToIMSCC oid cid course) ∧
    (∀ oid cid (course : GeneratedCourse),
      (exportToIMSCC oid cid course).length =
        2 + (course.modules.map fun m => m.items.length).sum) := by
  refine ⟨fun h => by simp [itemEntry, h], fun h1 h2 h3 h4 => ?_, ?_, ?_⟩
  · simp [itemEntry, h1, h2, h3, h4]
  · intro oid cid course m hm hit
    refine List.mem_cons_of_mem _ (List.mem_cons_of_mem _ ?_)
    exact List.mem_flatMap.mpr ⟨m, hm, List.mem_map_of_mem _ hit⟩
  · intro oid cid course
    have h : List.map (List.length ∘ fun m => List.map itemEntry m.items)
          course.modules
        = List.map (fun m => m.items.length) course.modules :=
      List.map_congr_left fun m _ => by simp [Function.comp, List.length_map]
    simp [exportToIMSCC, List.length_flatMap, h]
    omega

/-- Witness for C4: the quiz item of `smallCourse` routes to
`quizzes/quiz1.xml`, the unrecognized `video` type routes to the top-level
page path, and both entries occur in the concrete export. -/
theorem exporter_item_routing_witness :
    itemEntry quizItemAB = ("quizzes/quiz1.xml", generateQuizQti quizItemAB) ∧
    itemEntry videoItem = ("video-1.html", generatePageHtml "Video" "") ∧
    itemEntry quizItemAB ∈ exportToIMSCC "ov" "cid" smallCourse ∧
    itemEntry videoItem ∈ exportToIMSCC "ov" "cid" smallCourse :=
  ⟨(exporter_item_routing quizItemAB).1 rfl,
   (exporter_item_routing videoItem).2.1 (by decide) (by decide) (by decide)
     (by decide),
   (exporter_item_routing quizItemAB).2.2.1 "ov" "cid" smallCourse
     { id := "module-1", name := "Module 1", position := 1,
       items := [videoItem, quizItemAB] } (by decide) (by decide),
   (exporter_item_routing videoItem).2.2.1 "ov" "cid" smallCourse
     { id := "module-1", name := "Module 1", position := 1,
       items := [videoItem, quizItemAB] } (by decide) (by decide)⟩

/-! ## Exporter ordering and position fields: claim C9 -/

theorem flatMap_congr_map {α β : Type} (F : α → α) (g : α → List β) :
    ∀ l : List α, (∀ x ∈ l, g (F x) = g x) →
      (l.map F).flatMap g = l.flatMap g
  | [], _ => rfl
  | a :: t, h => by
    simp only [List.map_cons, List.flatMap_cons]
    rw [h a (List.mem_cons_self a t),
      flatMap_congr_map F g t fun x hx => h x (List.mem_cons_of_mem a hx)]

theorem manifestModule_congr {m m' : CanvasModule} (hid : m'.id = m.id)
    (hname : m'.name = m.name)
    (hitems : m'.items.map manifestModuleItem = m.items.map manifestModuleItem) :
    manifestModule m' = manifestModule m := by
  unfold manifestModule
  rw [hid, hname, hitems]

theorem generateManifest_congr (oid cid : String) (c c' : GeneratedCourse)
    (ht : c'.title = c.title) (hd : c'.description = c.description)
    (hres : (c'.modules.flatMap fun m => m.items.map manifestResource) =
      c.modules.flatMap fun m => m.items.map manifestResource)
    (hmods : c'.modules.map manifestModule = c.modules.map manifestModule) :
    generateManifest oid cid c' = generateManifest oid cid c := by
  unfold generateManifest
  rw [ht, hd, hres, hmods]

/-- The manifest renderer never reads a `position` field: renumbering every
module and item position leaves the manifest unchanged. -/
theorem generateManifest_position_invariant (oid cid : String)
    (course : GeneratedCourse) (f : CanvasModule → Int)
    (g : CanvasModuleItem → Int) :
    generateManifest oid cid
      { course with modules := course.modules.map fun m =>
          { m with position := f m,
                   items := m.items.map fun it => { it with position := g it } } } =
      generateManifest oid cid course := by
  have hRes : (((course.modules.map fun m =>
      { m with position := f m,
               items := m.items.map fun it => { it with position := g it } }
        : List CanvasModule).flatMap
        fun m => m.items.map manifestResource) =
      course.modules.flatMap fun m => m.items.map manifestResource) :=
    flatMap_congr_map _ _ course.modules fun m _ => by
      show (m.items.map fun it => { it with position := g it }).map manifestResource
          = m.items.map manifestResource
      rw [List.map_map]
      exact List.map_congr_left fun it _ => rfl
  have hMods : ((course.modules.map fun m =>
      { m with position := f m,
               items := m.items.map fun it => { it with position := g it } }).map
        manifestModule) = course.modules.map manifestModule := by
    rw [List.map_map]
    refine List.map_congr_left fun m _ => ?_
    refine manifestModule_congr rfl rfl ?_
    show (m.items.map fun it => { it with position := g it }).map manifestModuleItem
        = m.items.map manifestModuleItem
    rw [List.map_map]
    exact List.map_congr_left fun it _ => rfl
  exact generateManifest_congr oid cid course _ rfl rfl hRes hMods

set_option maxRecDepth 10000 in
/-- Counterexample input for C9's manifest clause: renumbering every position
of `smallCourse` (module position 7, item positions 99 and 98) yields a
different course but the identical manifest — no position value is embedded
in the manifest at all. -/
theorem manifest_omits_position :
    generateManifest "ov" "cid" smallCourseRenumbered =
      generateManifest "ov" "cid" smallCourse ∧
    smallCourseRenumbered ≠ smallCourse := by
  constructor
  · have h : smallCourseRenumbered =
        { smallCourse with modules := smallCourse.modules.map fun m =>
            { m with position := (7 : Int),
                     items := m.items.map fun it =>
                       { it with position :=
                          if it.id = "video-1" then (99 : Int) else 98 } } } := by
      decide
    rw [h]
    exact generateManifest_position_invariant "ov" "cid" smallCourse _ _
  · decide

/-- C9 (amended): the exporter emits modules and items — in the manifest
organization and in the archive file list — in exactly the iteration order of
the modules and items arrays, performing no sorting by position; the position
fields are not used by the exporter at all (in particular they are not
embedded in the manifest): renumbering every position leaves the whole
archive unchanged. -/
theorem exporter_iteration_order_position_unused (oid cid : String)
    (course : GeneratedCourse) (f : CanvasModule → Int)
    (g : CanvasModuleItem → Int) :
    exportToIMSCC oid cid
      { course with modules := course.modules.map fun m =>
          { m with position := f m,
                   items := m.items.map fun it => { it with position := g it } } } =
      exportToIMSCC oid cid course ∧
    (exportToIMSCC oid cid course).map Prod.fst =
      "imsmanifest.xml" :: "course_overview.html" ::
        (course.modules.flatMap fun m => m.items.map fun it => (itemEntry it).1) := by
  constructor
  · have hFiles : (((course.modules.map fun m =>
        { m with position := f m,
                 items := m.items.map fun it => { it with position := g it } }
          : List CanvasModule).flatMap
          fun m => m.items.map itemEntry) =
        course.modules.flatMap fun m => m.items.map itemEntry) :=
      flatMap_congr_map _ _ course.modules fun m _ => by
        show (m.items.map fun it => { it with position := g it }).map itemEntry
            = m.items.map itemEntry
        rw [List.map_map]
        exact List.map_congr_left fun it _ => rfl
    unfold exportToIMSCC
    rw [generateManifest_position_invariant oid cid course f g, hFiles]
  · simp only [exportToIMSCC, List.map_cons, List.map_flatMap, List.map_map]
    rfl

/-! ## XML escaping: claim C5 -/

theorem replaceAllChar_append (c : Char) (r : List Char) (a b : List Char) :
    replaceAllChar c r (a ++ b) =
      replaceAllChar c r a ++ replaceAllChar c r b := by
  induction a with
  | nil => rfl
  | cons x xs ih => simp [replaceAllChar, ih, List.append_assoc]

theorem escapeXmlChars_append (a b : List Char) :
    escapeXmlChars (a ++ b) = escapeXmlChars a ++ escapeXmlChars b := by
  simp [escapeXmlChars, replaceAllChar_append]

theorem escapeXmlChars_single (x : Char) :
    escapeXmlChars [x] = escCharSpec x := by
  by_cases h1 : x = '&'
  · subst h1; decide
  by_cases h2 : x = '<'
  · subst h2; decide
  by_cases h3 : x = '>'
  · subst h3; decide
  by_cases h4 : x = quoteChar
  · subst h4; decide
  by_cases h5 : x = aposChar
  · subst h5; decide
  simp [escapeXmlChars, replaceAllChar, escCharSpec, h1, h2, h3, h4, h5]

theorem escapeXmlChars_flatMap (l : List Char) :
    escapeXmlChars l = l.flatMap escCharSpec := by
  induction l with
  | nil => rfl
  | cons x xs ih =>
    rw [List.flatMap_cons, ← ih, ← escapeXmlChars_single x]
    exact escapeXmlChars_append [x] xs

theorem infix_data_left {l : List Char} (a b : String) (h : l <:+: a.data) :
    l <:+: (a ++ b).data := by
  obtain ⟨s, t, hst⟩ := h
  exact ⟨s, t ++ b.data, by rw [data_append, ← hst]; simp [List.append_assoc]⟩

theorem infix_data_right {l : List Char} (a b : String) (h : l <:+: b.data) :
    l <:+: (a ++ b).data := by
  obtain ⟨s, t, hst⟩ := h
  exact ⟨a.data ++ s, t, by rw [data_append, ← hst]; simp [List.append_assoc]⟩

theorem strJoin_mem {β : Type} (f : β → String) {x : β} :
    ∀ {l : List β}, x ∈ l → (f x).data <:+: (strJoin (l.map f)).data := by
  intro l hx
  induction l with
  | nil => cases hx
  | cons a t ih =>
    rcases List.mem_cons.mp hx with h | h
    · subst h
      rw [List.map_cons, strJoin_cons]
      exact infix_data_left _ _ (List.infix_refl _)
    · rw [List.map_cons, strJoin_cons]
      exact infix_data_right _ _ (ih h)

/-- C5: `escapeXml` replaces every occurrence of the five XML special
characters `& < > " '` by their entity equivalents
(`&amp; &lt; &gt; &quot; &apos;`) and alters nothing else — it equals the
per-character substitution `escCharSpec` — and this escaped form is what
appears in the generated manifest for the course title, the course
description, every module name and every item title, and inside the
`<title>` element of generated page HTML. -/
theorem escapeXml_spec :
    (∀ s : String, (escapeXml s).data = s.data.flatMap escCharSpec) ∧
    (∀ oid cid (c : GeneratedCourse),
      (escapeXml c.title).data <:+: (generateManifest oid cid c).data) ∧
    (∀ oid cid (c : GeneratedCourse),
      (escapeXml c.description).data <:+: (generateManifest oid cid c).data) ∧
    (∀ oid cid (c : GeneratedCourse) (m : CanvasModule), m ∈ c.modules →
      (escapeXml m.name).data <:+: (generateManifest oid cid c).data) ∧
    (∀ oid cid (c : GeneratedCourse) (m : CanvasModule) (it : CanvasModuleItem),
      m ∈ c.modules → it ∈ m.items →
      (escapeXml it.title).data <:+: (generateManifest oid cid c).data) ∧
    (∀ title content,
      ("<title>" ++ escapeXml title ++ "</title>").data <:+:
        (generatePageHtml title content).data) := by
  refine ⟨fun s => escapeXmlChars_flatMap s.data, ?_, ?_, ?_, ?_, ?_⟩
  · intro oid cid c
    simp only [generateManifest]
    apply infix_data_left
    apply infix_data_left
    apply infix_data_left
    apply infix_data_left
    apply infix_data_left
    apply infix_data_left
    apply infix_data_left
    apply infix_data_right
    exact List.infix_refl _
  · intro oid cid c
    simp only [generateManifest]
    apply infix_data_left
    apply infix_data_left
    apply infix_data_left
    apply infix_data_left
    apply infix_data_left
    apply infix_data_right
    exact List.infix_refl _
  · intro oid cid c m hm
    simp only [generateManifest]
    apply infix_data_left
    apply infix_data_left
    apply infix_data_left
    apply infix_data_right
    rw [strJoin_cons]
    apply infix_data_right
    refine List.IsInfix.trans ?_ (strJoin_mem manifestModule hm)
    simp only [manifestModule]
    apply infix_data_left
    apply infix_data_left
    apply infix_data_left
    apply infix_data_right
    exact List.infix_refl _
  · intro oid cid c m it hm hit
    simp only [generateManifest]
    apply infix_data_left
    apply infix_data_left
    apply infix_data_left
    apply infix_data_right
    rw [strJoin_cons]
    apply infix_data_right
    refine List.IsInfix.trans ?_ (strJoin_mem manifestModule hm)
    simp only [manifestModule]
    apply infix_data_left
    apply infix_data_right
    refine List.IsInfix.trans ?_ (strJoin_mem manifestModuleItem hit)
    simp only [manifestModuleItem]
    apply infix_data_left
    apply infix_data_right
    exact List.infix_refl _
  · intro title content
    refine ⟨("<!DOCTYPE html>\n<html>\n<head>\n  <meta charset=\"UTF-8\">\n  ").data,
      ("\n</head>\n<body>\n" ++ content ++ "\n</body>\n</html>").data, ?_⟩
    simp only [generatePageHtml, data_append, List.append_assoc]
    rfl

/-- Witness for C5: the characterization at a concrete string holding all
five special characters, and the membership clauses at the concrete module
and quiz item of `smallCourse`. -/
theorem escapeXml_spec_witness :
    (escapeXml (String.mk
        ['a', '<', 'b', '>', '&', quoteChar, 'q', aposChar])).data =
      (String.mk ['a', '<', 'b', '>', '&', quoteChar, 'q', aposChar]).data.flatMap
        escCharSpec ∧
    (escapeXml "Module 1").data <:+:
      (generateManifest "ov" "cid" smallCourse).data ∧
    (escapeXml "Letters").data <:+:
      (generateManifest "ov" "cid" smallCourse).data :=
  ⟨escapeXml_spec.1 _,
   escapeXml_spec.2.2.2.1 "ov" "cid" smallCourse
     { id := "module-1", name := "Module 1", position := 1,
       items := [videoItem, quizItemAB] } (by decide),
   escapeXml_spec.2.2.2.2.1 "ov" "cid" smallCourse
     { id := "module-1", name := "Module 1", position := 1,
       items := [videoItem, quizItemAB] } quizItemAB (by decide) (by decide)⟩

/-! ## JSON fence stripping: claim C6 -/

theorem strStartsWith_append_self (p l : List Char) :
    strStartsWith p (p ++ l) = true := by
  induction p with
  | nil => rfl
  | cons a ps ih => simp [strStartsWith, ih]

theorem strStartsWith_mono (p q : List Char) :
    ∀ l, strStartsWith (p ++ q) l = true → strStartsWith p l = true := by
  induction p with
  | nil => intro l _; rfl
  | cons a ps ih =>
    intro l h
    cases l with
    | nil => simp [strStartsWith] at h
    | cons c cs =>
      simp only [List.cons_append, strStartsWith, Bool.and_eq_true] at h ⊢
      exact ⟨h.1, ih cs h.2⟩

theorem strEndsWith_append_self (l p : List Char) :
    strEndsWith p (l ++ p) = true := by
  unfold strEndsWith
  rw [List.reverse_append]
  exact strStartsWith_append_self _ _

theorem dropWhile_idem (p : Char → Bool) (l : List Char) :
    (l.dropWhile p).dropWhile p = l.dropWhile p := by
  induction l with
  | nil => rfl
  | cons a t ih =>
    by_cases h : p a
    · simp [List.dropWhile_cons, h, ih]
    · simp [List.dropWhile_cons, h]

theorem dropWhile_head_false (p : Char → Bool) :
    ∀ {L t : List Char} {x : Char}, L.dropWhile p = x :: t → p x = false := by
  intro L
  induction L with
  | nil => intro t x h; cases h
  | cons y ys ih =>
    intro t x h
    rw [List.dropWhile_cons] at h
    by_cases hy : p y
    · rw [if_pos hy] at h
      exact ih h
    · rw [if_neg hy] at h
      injection h with h1 _
      subst h1
      simpa using hy

theorem dropWhile_fix_head (p : Char → Bool) {x : Char} {t : List Char}
    (h : List.dropWhile p (x :: t) = x :: t) : p x = false :=
  dropWhile_head_false p h

theorem trimChars_cons_ws {w : Char} (hw : isJsWhitespace w = true)
    (l : List Char) : trimChars (w :: l) = trimChars l := by
  unfold trimChars trimLeftChars
  rw [List.dropWhile_cons, if_pos hw]

theorem trimRightChars_snoc_ws {w : Char} (hw : isJsWhitespace w = true)
    (l : List Char) : trimRightChars (l ++ [w]) = trimRightChars l := by
  unfold trimRightChars
  rw [List.reverse_append]
  simp [List.dropWhile_cons, hw]

theorem trimRightChars_snoc_nonws {d : Char} (hd : isJsWhitespace d = false)
    (l : List Char) : trimRightChars (l ++ [d]) = l ++ [d] := by
  unfold trimRightChars
  rw [List.reverse_append]
  simp [List.dropWhile_cons, hd]

theorem trimChars_snoc_ws {w : Char} (hw : isJsWhitespace w = true)
    (l : List Char) : trimChars (l ++ [w]) = trimChars l := by
  unfold trimChars trimLeftChars
  rw [List.dropWhile_append]
  by_cases h : (l.dropWhile isJsWhitespace).isEmpty
  · rw [if_pos h]
    rw [List.isEmpty_iff] at h
    rw [h]
    simp [List.dropWhile_cons, hw]
  · rw [if_neg h]
    exact trimRightChars_snoc_ws hw _

theorem trimChars_trimChars (l : List Char) :
    trimChars (trimChars l) = trimChars l := by
  cases hz : (trimLeftChars l).reverse.dropWhile isJsWhitespace with
  | nil =>
    have h1 : trimChars l = [] := by
      unfold trimChars trimRightChars
      rw [hz]
      rfl
    rw [h1]
    rfl
  | cons a t =>
    have hTC : trimChars l = t.reverse ++ [a] := by
      unfold trimChars trimRightChars
      rw [hz, List.reverse_cons]
    have hpa : isJsWhitespace a = false := dropWhile_head_false _ hz
    -- the left-trimmed list decomposes around the dropped whitespace suffix
    have hA : trimLeftChars l =
        (t.reverse ++ [a]) ++ ((trimLeftChars l).reverse.takeWhile isJsWhitespace).reverse := by
      have h0 : (trimLeftChars l).reverse.takeWhile isJsWhitespace ++ (a :: t) =
          (trimLeftChars l).reverse := by
        rw [← hz]
        exact List.takeWhile_append_dropWhile isJsWhitespace _
      calc trimLeftChars l
          = (trimLeftChars l).reverse.reverse := (List.reverse_reverse _).symm
        _ = ((trimLeftChars l).reverse.takeWhile isJsWhitespace ++ (a :: t)).reverse := by
            rw [h0]
        _ = (a :: t).reverse ++ ((trimLeftChars l).reverse.takeWhile isJsWhitespace).reverse := by
            rw [List.reverse_append]
        _ = (t.reverse ++ [a]) ++ ((trimLeftChars l).reverse.takeWhile isJsWhitespace).reverse := by
            rw [List.reverse_cons]
    have hFix : (trimLeftChars l).dropWhile isJsWhitespace = trimLeftChars l :=
      dropWhile_idem _ l
    -- the head of the trimmed result is not whitespace
    have hLeft : trimLeftChars (t.reverse ++ [a]) = t.reverse ++ [a] := by
      cases htr : t.reverse with
      | nil =>
        unfold trimLeftChars
        simp [List.dropWhile_cons, hpa]
      | cons h0 r =>
        have hh0 : isJsWhitespace h0 = false := by
          rw [hA, htr] at hFix
          have : List.dropWhile isJsWhitespace
              (h0 :: ((r ++ [a]) ++ ((trimLeftChars l).reverse.takeWhile isJsWhitespace).reverse)) =
              h0 :: ((r ++ [a]) ++ ((trimLeftChars l).reverse.takeWhile isJsWhitespace).reverse) := by
            simpa [List.cons_append, List.append_assoc] using hFix
          exact dropWhile_fix_head _ this
        unfold trimLeftChars
        simp [List.dropWhile_cons, hh0]
    rw [hTC]
    unfold trimChars
    rw [hLeft]
    exact trimRightChars_snoc_nonws hpa _

theorem take_sub_three (A : List Char) :
    (A ++ ("```").data).take ((A ++ ("```").data).length - 3) = A := by
  have h : (A ++ ("```").data).length - 3 = A.length := by simp
  rw [h]
  exact List.take_left _ _

theorem clean_json_fenced (J : List Char) :
    cleanJSONChars ((("```json\n").data ++ J) ++ ("\n```").data) = trimChars J := by
  have hbt : isJsWhitespace backtickChar = false := by decide
  have hnl : isJsWhitespace '\n' = true := by decide
  have hW : ((("```json\n").data ++ J) ++ ("\n```").data) =
      (backtickChar :: (("``json\n").data ++ (J ++ ("\n``").data))) ++ [backtickChar] := by
    simp only [List.append_assoc, List.cons_append]
    rfl
  have htrim : trimChars ((("```json\n").data ++ J) ++ ("\n```").data) =
      (("```json\n").data ++ J) ++ ("\n```").data := by
    rw [hW]
    unfold trimChars trimLeftChars
    rw [show (backtickChar :: (("``json\n").data ++ (J ++ ("\n``").data))) ++ [backtickChar]
        = backtickChar :: ((("``json\n").data ++ (J ++ ("\n``").data)) ++ [backtickChar]) from rfl]
    rw [List.dropWhile_cons, if_neg (by simp [hbt])]
    rw [show backtickChar :: ((("``json\n").data ++ (J ++ ("\n``").data)) ++ [backtickChar])
        = (backtickChar :: (("``json\n").data ++ (J ++ ("\n``").data))) ++ [backtickChar] from rfl]
    exact trimRightChars_snoc_nonws hbt _
  have hsplit : ((("```json\n").data ++ J) ++ ("\n```").data) =
      ("```json").data ++ ('\n' :: (J ++ ("\n```").data)) := rfl
  have h1 : strStartsWith (("```json").data)
      ((("```json\n").data ++ J) ++ ("\n```").data) = true := by
    rw [hsplit]
    exact strStartsWith_append_self _ _
  have hdrop : (((("```json\n").data ++ J) ++ ("\n```").data)).drop 7 =
      '\n' :: (J ++ ("\n```").data) := by
    rw [hsplit]
    exact List.drop_left (("```json").data) _
  have hmid : '\n' :: (J ++ ("\n```").data) =
      (('\n' :: J) ++ ['\n']) ++ ("```").data := by
    simp only [List.cons_append, List.append_assoc]
    rfl
  have hend : strEndsWith (("```").data) ('\n' :: (J ++ ("\n```").data)) = true := by
    rw [hmid]
    exact strEndsWith_append_self _ _
  unfold cleanJSONChars
  dsimp only
  rw [htrim, h1, if_pos rfl, hdrop, hend, if_pos rfl, hmid, take_sub_three,
    trimChars_snoc_ws hnl, trimChars_cons_ws hnl]

theorem clean_bare_fenced (J : List Char) :
    cleanJSONChars ((("```\n").data ++ J) ++ ("\n```").data) = trimChars J := by
  have hbt : isJsWhitespace backtickChar = false := by decide
  have hnl : isJsWhitespace '\n' = true := by decide
  have htrim : trimChars ((("```\n").data ++ J) ++ ("\n```").data) =
      (("```\n").data ++ J) ++ ("\n```").data := by
    rw [show ((("```\n").data ++ J) ++ ("\n```").data)
        = backtickChar :: ((("``\n").data ++ (J ++ ("\n``").data)) ++ [backtickChar]) from by
      simp only [List.append_assoc, List.cons_append]
      rfl]
    unfold trimChars trimLeftChars
    rw [List.dropWhile_cons, if_neg (by simp [hbt])]
    rw [show backtickChar :: ((("``\n").data ++ (J ++ ("\n``").data)) ++ [backtickChar])
        = (backtickChar :: (("``\n").data ++ (J ++ ("\n``").data))) ++ [backtickChar] from rfl]
    exact trimRightChars_snoc_nonws hbt _
  have hsplit : ((("```\n").data ++ J) ++ ("\n```").data) =
      ("```").data ++ ('\n' :: (J ++ ("\n```").data)) := rfl
  have h0 : strStartsWith (("```json").data)
      ((("```\n").data ++ J) ++ ("\n```").data) = false := by
    show strStartsWith
        (backtickChar :: backtickChar :: backtickChar :: 'j' :: 's' :: 'o' :: 'n' :: [])
        (backtickChar :: backtickChar :: backtickChar :: '\n' :: (J ++ ("\n```").data)) =
      false
    simp [strStartsWith, (by decide : (('j' : Char) == '\n') = false)]
  have h1 : strStartsWith (("```").data)
      ((("```\n").data ++ J) ++ ("\n```").data) = true := by
    rw [hsplit]
    exact strStartsWith_append_self _ _
  have hdrop : (((("```\n").data ++ J) ++ ("\n```").data)).drop 3 =
      '\n' :: (J ++ ("\n```").data) := by
    rw [hsplit]
    exact List.drop_left (("```").data) _
  have hmid : '\n' :: (J ++ ("\n```").data) =
      (('\n' :: J) ++ ['\n']) ++ ("```").data := by
    simp only [List.cons_append, List.append_assoc]
    rfl
  have hend : strEndsWith (("```").data) ('\n' :: (J ++ ("\n```").data)) = true := by
    rw [hmid]
    exact strEndsWith_append_self _ _
  unfold cleanJSONChars
  dsimp only
  rw [htrim, h0, if_neg (show ¬ (false = true) by simp), h1, if_pos rfl, hdrop,
    hend, if_pos rfl, hmid, take_sub_three, trimChars_snoc_ws hnl,
    trimChars_cons_ws hnl]

theorem clean_unwrapped (J : List Char)
    (hpre : strStartsWith (("```").data) (trimChars J) = false)
    (hsuf : strEndsWith (("```").data) (trimChars J) = false) :
    cleanJSONChars J = trimChars J := by
  have hpre7 : strStartsWith (("```json").data) (trimChars J) = false := by
    cases hx : strStartsWith (("```json").data) (trimChars J)
    · rfl
    · rw [show (("```json").data) = ("```").data ++ ("json").data from rfl] at hx
      have h3 := strStartsWith_mono _ _ _ hx
      rw [hpre] at h3
      cases h3
  unfold cleanJSONChars
  dsimp only
  rw [hpre7, hpre]
  simp only [Bool.false_eq_true, if_false]
  rw [hsuf]
  simp only [Bool.false_eq_true, if_false]
  exact trimChars_trimChars J

/-- C6: a reply consisting of a (trimmed, fence-free) JSON text `J` wrapped
in a ```` ```json ... ``` ```` fence or a bare ```` ``` ... ``` ```` fence
parses to the same result as the unwrapped reply `J`; and any reply that is
not parseable after fence stripping yields the error
`LLM response was not valid JSON` rather than a value. -/
theorem generateJSONResponse_fence_equiv {α : Type} (parse : List Char → Option α)
    (J : List Char)
    (hpre : strStartsWith (("```").data) (trimChars J) = false)
    (hsuf : strEndsWith (("```").data) (trimChars J) = false) :
    generateJSONResponse parse ("```json\n" ++ String.mk J ++ "\n```") =
      generateJSONResponse parse (String.mk J) ∧
    generateJSONResponse parse ("```\n" ++ String.mk J ++ "\n```") =
      generateJSONResponse parse (String.mk J) ∧
    (∀ response : String, parse (cleanJSONChars response.data) = none →
      generateJSONResponse parse response =
        Except.error "LLM response was not valid JSON") := by
  refine ⟨?_, ?_, fun response h => ?_⟩
  · unfold generateJSONResponse
    rw [show ("```json\n" ++ String.mk J ++ "\n```").data
        = (("```json\n").data ++ J) ++ ("\n```").data from rfl]
    rw [clean_json_fenced, show (String.mk J).data = J from rfl,
      clean_unwrapped J hpre hsuf]
  · unfold generateJSONResponse
    rw [show ("```\n" ++ String.mk J ++ "\n```").data
        = (("```\n").data ++ J) ++ ("\n```").data from rfl]
    rw [clean_bare_fenced, show (String.mk J).data = J from rfl,
      clean_unwrapped J hpre hsuf]
  · unfold generateJSONResponse
    rw [h]

/-- Witness for C6 at the concrete JSON text `42` and a parse function
recognizing it. -/
theorem generateJSONResponse_fence_equiv_witness :
    strStartsWith (("```").data) (trimChars ['4', '2']) = false ∧
    strEndsWith (("```").data) (trimChars ['4', '2']) = false ∧
    generateJSONResponse (fun l => if l = ['4', '2'] then some 42 else none)
        ("```json\n" ++ String.mk ['4', '2'] ++ "\n```") =
      generateJSONResponse (fun l => if l = ['4', '2'] then some 42 else none)
        (String.mk ['4', '2']) :=
  ⟨by decide, by decide,
   (generateJSONResponse_fence_equiv (fun l => if l = ['4', '2'] then some 42 else none)
     ['4', '2'] (by decide) (by decide)).1⟩


end CourseWizard
